import Mathlib

/-!
Verification of the question/response/analysis pipeline of the interactive
questionnaire repository.  The Python sources are embedded shallowly:

* `PyObj` models the Python values stored in a `ResponseMap` / `AnalysisResult`
  (strings, numbers, lists, dicts, `None`); dicts are association lists that
  keep Python's insertion order.
* `src/questionnaire_config.py` is embedded as `validateQuestionFormat`,
  `createCustomQuestionSet` and the registration flow `registerQuestionSet`.
* `src/enhanced_questionnaire.py` is embedded as the collector (`attempt`,
  `getUserInput`, `conductQuestionnaire`), the analysis engine (`riskScore`,
  `generateOverallAssessment`, `setRecs`) and the export record
  (`saveResultsDoc`).
* `src/experiment_monitoring_questionnaire.py` is embedded as the timing
  validator (`parseDate`, `rataDie`, `validateExperimentTiming`) and the
  identifier-list parser (`compileAllAris`).

Python string primitives (`strip`, `split`, `in`, `int()`, `float()`) are
modelled by char-list functions so that all definitions evaluate by kernel
reduction.  Notes on deliberate model boundaries appear at each definition.
-/

/-- Model of a Python value as stored in response maps and analysis results.
Python `int` and `float` are kept distinct (JSON round-trips preserve the
distinction); floats are modelled as rationals, which is faithful for every
value this program constructs from parsed decimal input. -/
inductive PyObj where
  | none
  | bool (b : Bool)
  | int (n : Int)
  | float (q : Rat)
  | str (s : String)
  | list (l : List PyObj)
  | dict (d : List (String × PyObj))

/-- A JSON document value, as produced by `json.dump` and read back by
`json.load`.  Python's `json` module distinguishes integer and real literals,
hence the two numeric constructors. -/
inductive Json where
  | null
  | bool (b : Bool)
  | int (n : Int)
  | float (q : Rat)
  | str (s : String)
  | arr (l : List Json)
  | obj (d : List (String × Json))

mutual

/-- Encoding of a Python value into the JSON document written by `json.dump`
(`save_results`, src/enhanced_questionnaire.py lines 797-799). -/
def pyToJson : PyObj → Json
  | .none => .null
  | .bool b => .bool b
  | .int n => .int n
  | .float q => .float q
  | .str s => .str s
  | .list l => .arr (pyListToJson l)
  | .dict d => .obj (pyDictToJson d)

def pyListToJson : List PyObj → List Json
  | [] => []
  | x :: xs => pyToJson x :: pyListToJson xs

def pyDictToJson : List (String × PyObj) → List (String × Json)
  | [] => []
  | (k, v) :: xs => (k, pyToJson v) :: pyDictToJson xs

end

mutual

/-- Modelled from the spec: `json.load` of the structured document (the reader
is not part of src/; §6 of the spec describes the export as a field-named
record that must reproduce identical field values).  It decodes a JSON value
back to the Python value it denotes. -/
def jsonToPy : Json → PyObj
  | .null => .none
  | .bool b => .bool b
  | .int n => .int n
  | .float q => .float q
  | .str s => .str s
  | .arr l => .list (jsonListToPy l)
  | .obj d => .dict (jsonDictToPy d)

def jsonListToPy : List Json → List PyObj
  | [] => []
  | x :: xs => jsonToPy x :: jsonListToPy xs

def jsonDictToPy : List (String × Json) → List (String × PyObj)
  | [] => []
  | (k, v) :: xs => (k, jsonToPy v) :: jsonDictToPy xs

end

/-- Python whitespace for `str.strip()` / `str.split()` (ASCII part: space,
tab, newline, carriage return, vertical tab, form feed; unicode whitespace is
not modelled — no question text or test input in the repository uses it). -/
def isPyWs (c : Char) : Bool :=
  c = ' ' || c = '\t' || c = '\n' || c = '\r' || c = '\x0b' || c = '\x0c'

/-- Python `str.strip()` on the character list. -/
def pyTrimList (l : List Char) : List Char :=
  ((l.dropWhile isPyWs).reverse.dropWhile isPyWs).reverse

/-- Python `str.strip()`. -/
def pyTrim (s : String) : String := ⟨pyTrimList s.data⟩

/-- Python `str.split(sep)` for a one-character separator: keeps empty pieces
between adjacent separators, like Python. -/
def splitCharList (c : Char) : List Char → List (List Char)
  | [] => [[]]
  | x :: xs =>
      let r := splitCharList c xs
      if x = c then [] :: r
      else
        match r with
        | [] => [[x]]
        | h :: t => (x :: h) :: t

/-- Python `s.split(sep)` on strings (one-character separator). -/
def pySplitChar (c : Char) (s : String) : List String :=
  (splitCharList c s.data).map (fun l => ⟨l⟩)

/-- Python `s.split()` with no argument: splits on whitespace runs and drops
empty pieces. -/
def pySplitWs (s : String) : List String :=
  ((s.data.splitOnP isPyWs).map (fun l => (⟨l⟩ : String))).filter (· ≠ "")

/-- Python `c in s` for a one-character needle. -/
def pyContainsChar (c : Char) (s : String) : Bool := s.data.any (· = c)

/-- Numeric value of a list of decimal digit characters. -/
def natOfDigits (l : List Char) : Nat :=
  l.foldl (fun a c => 10 * a + (c.toNat - 48)) 0

/-- Python `int(s)`: strip whitespace, optional sign, decimal digits.
(Python additionally accepts single underscores between digits and unicode
digits; neither occurs in this program's prompts and they are not modelled.) -/
def parsePyInt (s : String) : Option Int :=
  match (pyTrim s).data with
  | [] => Option.none
  | c :: rest =>
      if c = '-' then
        if rest ≠ [] ∧ rest.all Char.isDigit then some (-(natOfDigits rest : Int))
        else Option.none
      else if c = '+' then
        if rest ≠ [] ∧ rest.all Char.isDigit then some (natOfDigits rest : Int)
        else Option.none
      else if (c :: rest).all Char.isDigit then some (natOfDigits (c :: rest) : Int)
      else Option.none

/-- Python `float(s)` restricted to plain decimal notation
`[sign] digits [. digits]` (exponents, `inf` and `nan` are accepted by Python
but never produced by this program's numeric prompts; they are not modelled). -/
def parsePyFloat (s : String) : Option Rat :=
  let core : List Char → Option Rat := fun ds =>
    match splitCharList '.' ds with
    | [a] =>
        if a ≠ [] ∧ a.all Char.isDigit then some (natOfDigits a : Rat) else Option.none
    | [a, b] =>
        if (a ≠ [] ∨ b ≠ []) ∧ a.all Char.isDigit ∧ b.all Char.isDigit then
          some ((natOfDigits a : Rat) + (natOfDigits b : Rat) / (10 : Rat) ^ b.length)
        else Option.none
    | _ => Option.none
  match (pyTrim s).data with
  | [] => Option.none
  | c :: rest =>
      if c = '-' then (core rest).map (fun q => -q)
      else if c = '+' then core rest
      else core (c :: rest)

/-- A question definition dictionary.  Fields are `Option`s because the format
validator (`validate_question_format`, src/questionnaire_config.py lines
382-401) must detect missing keys.  `help_text` is never read by any embedded
function and is omitted. -/
structure QuestionData where
  id? : Option String := Option.none
  question? : Option String := Option.none
  qtype? : Option String := Option.none
  options? : Option (List String) := Option.none
  scale? : Option Int := Option.none
  required? : Option Bool := Option.none

/-- `question_data.get("required", False)` (src/enhanced_questionnaire.py
line 83). -/
def QuestionData.required (q : QuestionData) : Bool := q.required?.getD false

/-- `question["id"]`.  A missing key raises `KeyError` in Python; the collector
only runs on validated questions, where the key is present.  Modelled as the
empty string when absent. -/
def qidOf (q : QuestionData) : String := q.id?.getD ""

/-- `list(QUESTION_TYPES.keys())` (src/questionnaire_config.py lines 271-302,
385). -/
def questionTypes : List String :=
  ["multiple_choice", "multi_select", "text", "numeric", "date", "rating"]

/-- `validate_question_format` (src/questionnaire_config.py lines 382-401):
required keys `id`, `question`, `type`; the type tag must be a known type;
choice types need a non-empty (truthy) `options` value. -/
def validateQuestionFormat (q : QuestionData) : Bool :=
  q.id?.isSome && q.question?.isSome && q.qtype?.isSome &&
  (match q.qtype? with
   | some t => questionTypes.contains t
   | Option.none => false) &&
  (if q.qtype? = some "multiple_choice" ∨ q.qtype? = some "multi_select" then
     match q.options? with
     | some l => !l.isEmpty
     | Option.none => false
   else true)

/-- The question-set record built by `create_custom_question_set`
(src/questionnaire_config.py lines 372-380). -/
structure QuestionSet where
  name : String
  description : String
  questions : List QuestionData
  category : String

/-- `create_custom_question_set` (src/questionnaire_config.py lines 372-380):
builds the record unconditionally — it performs no validation itself. -/
def createCustomQuestionSet (name description : String)
    (questions : List QuestionData) (category : String) : QuestionSet :=
  { name := name, description := description, questions := questions,
    category := category }

/-- The runtime registration flow for a caller-supplied question list: each
question is checked with `validate_question_format` and the whole construction
returns `None` at the first failure, otherwise the set is created
(`create_experiment_monitoring_questions`,
src/experiment_monitoring_questionnaire.py lines 110-127; the identical
pattern appears in src/custom_questionnaire_example.py lines 103-120 and
src/updated_experiment_monitoring_questionnaire.py lines 186-203). -/
def registerQuestionSet (name description : String)
    (questions : List QuestionData) (category : String) : Option QuestionSet :=
  if questions.all validateQuestionFormat then
    some (createCustomQuestionSet name description questions category)
  else Option.none

/-- The question types `get_user_input` has a branch for
(src/enhanced_questionnaire.py lines 90-166); any other type falls into the
`else` arm at lines 168-170, which returns `None` at once. -/
def supportedTypes : List String :=
  ["multiple_choice", "multi_select", "text", "numeric", "rating"]

/-- One iteration of the `while True` prompt loop of `get_user_input`
(src/enhanced_questionnaire.py lines 85-166) on the line `input` typed by the
user: `some v` means the answer `v` is accepted and returned, `Option.none`
means the iteration printed a corrective message and the loop re-prompts.
`question_data["options"]` would raise on a missing key (unreachable for
validated questions) and is modelled as the empty option list. -/
def attempt (q : QuestionData) (input : String) : Option PyObj :=
  let required := q.required
  match q.qtype?.getD "" with
  | "multiple_choice" =>
      let options := q.options?.getD []
      match parsePyInt input with
      | some i =>
          if 1 ≤ i ∧ i ≤ options.length then
            some (.str (options.getD (i - 1).toNat ""))
          else Option.none
      | Option.none => Option.none
  | "multi_select" =>
      let options := q.options?.getD []
      let t := pyTrim input
      if t = "" ∧ ¬required then some (.list [])
      else
        match (pySplitChar ',' t).mapM parsePyInt with
        | some nums =>
            if nums.all (fun n => 1 ≤ n ∧ n ≤ options.length) then
              let sel := nums.map (fun n => options.getD (n - 1).toNat "")
              if sel ≠ [] ∨ ¬required then some (.list (sel.map PyObj.str))
              else Option.none
            else Option.none
        | Option.none => Option.none
  | "text" =>
      let r := pyTrim input
      if r ≠ "" ∨ ¬required then some (.str r) else Option.none
  | "numeric" =>
      let r := pyTrim input
      if r = "" ∧ ¬required then some .none
      else (parsePyFloat r).map .float
  | "rating" =>
      let scale := q.scale?.getD 5
      match parsePyInt input with
      | some r => if 1 ≤ r ∧ r ≤ scale then some (.int r) else Option.none
      | Option.none => Option.none
  | _ => Option.none

/-- The prompt loop of `get_user_input` for a supported type: consume input
lines until one is accepted.  Exhausting the list models a run that never
completes (the real loop would block for the next line). -/
def getUserInputLoop (q : QuestionData) : List String → Option (PyObj × List String)
  | [] => Option.none
  | i :: rest =>
      match attempt q i with
      | some v => some (v, rest)
      | Option.none => getUserInputLoop q rest

/-- `get_user_input` (src/enhanced_questionnaire.py lines 78-170).  For an
unsupported question type the `else` arm returns the value `None` immediately,
consuming no input. -/
def getUserInput (q : QuestionData) (inputs : List String) :
    Option (PyObj × List String) :=
  if supportedTypes.contains (q.qtype?.getD "") then getUserInputLoop q inputs
  else some (.none, inputs)

/-- Python `d[k] = v` on a dict modelled as an insertion-ordered association
list: overwrite in place if the key exists, else append. -/
def dictSet (m : List (String × PyObj)) (k : String) (v : PyObj) :
    List (String × PyObj) :=
  if m.any (fun p => p.1 = k) then
    m.map (fun p => if p.1 = k then (k, v) else p)
  else m ++ [(k, v)]

/-- Python `d.get(k)` on the modelled dict. -/
def dictGet (m : List (String × PyObj)) (k : String) : Option PyObj :=
  (m.find? (fun p => p.1 = k)).map Prod.snd

/-- `conduct_questionnaire` (src/enhanced_questionnaire.py lines 172-194):
for every question in order, obtain an accepted answer and store it under the
question's id — the assignment at line 184 is unconditional.  `acc` is the
`self.responses` dict accumulated so far. -/
def conductQuestionnaire :
    List QuestionData → List String → List (String × PyObj) →
      Option (List (String × PyObj))
  | [], _, acc => some acc
  | q :: qs, inputs, acc =>
      match getUserInput q inputs with
      | some (v, rest) => conductQuestionnaire qs rest (dictSet acc (qidOf q) v)
      | Option.none => Option.none

/-- The per-question association list of accepted answers: question ids paired
with the answer `get_user_input` accepts for them, in question order. -/
def collectAnswers : List QuestionData → List String → Option (List (String × PyObj))
  | [], _ => some []
  | q :: qs, inputs =>
      match getUserInput q inputs with
      | some (v, rest) => (collectAnswers qs rest).map (fun l => (qidOf q, v) :: l)
      | Option.none => Option.none

/-- Python `self.responses.get(key) == literal` for a string literal: `True`
exactly when the key is present with that string value (comparison of `None`
or a non-string value with a string is `False`). -/
def respEqStr (m : List (String × PyObj)) (k lit : String) : Bool :=
  match dictGet m k with
  | some (.str t) => t = lit
  | _ => false

/-- Python `len(self.responses.get(key, []))`: length of the stored list (or
string — `len` on a string counts characters).  A stored number or `None`
would raise `TypeError`; that is unreachable for the multi-select fields this
is applied to and is modelled as 0. -/
def respLen (m : List (String × PyObj)) (k : String) : Nat :=
  match dictGet m k with
  | some (.list l) => l.length
  | some (.str s) => s.data.length
  | some (.dict d) => d.length
  | _ => 0

/-- The risk-score accumulation of `_generate_overall_assessment`
(src/enhanced_questionnaire.py lines 605-637), per selected question set. -/
def riskScore (kind : String) (resp : List (String × PyObj)) : Nat :=
  if kind = "business_analysis" then
    (if respEqStr resp "growth_rate" "Declining" then 3 else 0) +
    (if respEqStr resp "market_position" "Niche player" ∨
        respEqStr resp "market_position" "Emerging player" then 2 else 0) +
    (if respLen resp "challenges" > 3 then 2 else 0)
  else if kind = "investment_analysis" then
    (if respEqStr resp "risk_tolerance" "Aggressive" then 2 else 0) +
    (if respEqStr resp "market_conditions" "Bear market" ∨
        respEqStr resp "market_conditions" "Uncertain" then 2 else 0) +
    (if respEqStr resp "diversification" "Not diversified" then 3 else 0)
  else if kind = "project_management" then
    (if respEqStr resp "timeline_pressure" "High pressure" ∨
        respEqStr resp "timeline_pressure" "Critical deadline" then 2 else 0) +
    (if respEqStr resp "resource_availability" "Fair" ∨
        respEqStr resp "resource_availability" "Poor" then 2 else 0) +
    (if respLen resp "technical_risks" > 2 then 2 else 0)
  else if kind = "customer_satisfaction" then
    (if respEqStr resp "satisfaction_level" "Very dissatisfied" ∨
        respEqStr resp "satisfaction_level" "Dissatisfied" then 3 else 0) +
    (if respEqStr resp "loyalty_level" "Not loyal" ∨
        respEqStr resp "loyalty_level" "Somewhat loyal" then 2 else 0) +
    (if respLen resp "pain_points" > 3 then 2 else 0)
  else 0

/-- The risk-level bucketing of `_generate_overall_assessment`
(src/enhanced_questionnaire.py lines 639-645). -/
def riskLevel (score : Nat) : String :=
  if score ≥ 5 then "High" else if score ≥ 3 then "Medium" else "Low"

/-- `_generate_set_specific_recommendations`
(src/enhanced_questionnaire.py lines 657-742): a fixed recommendation list per
question-set kind and risk level. -/
def setRecs (kind level : String) : List String :=
  if kind = "business_analysis" then
    if level = "High" then
      ["Immediate action required on key challenges",
       "Consider strategic partnerships or acquisitions",
       "Review and strengthen risk management processes"]
    else if level = "Medium" then
      ["Address priority challenges systematically",
       "Monitor market conditions closely",
       "Strengthen competitive positioning"]
    else
      ["Maintain current strategies",
       "Focus on growth opportunities",
       "Continue monitoring for emerging risks"]
  else if kind = "investment_analysis" then
    if level = "High" then
      ["Review risk tolerance and portfolio allocation",
       "Consider professional financial advice",
       "Implement risk management strategies"]
    else if level = "Medium" then
      ["Monitor portfolio performance regularly",
       "Consider rebalancing",
       "Stay informed about market conditions"]
    else
      ["Maintain current investment strategy",
       "Continue regular monitoring",
       "Consider new opportunities within risk parameters"]
  else if kind = "project_management" then
    if level = "High" then
      ["Immediate risk mitigation planning",
       "Consider project scope reduction",
       "Increase stakeholder communication"]
    else if level = "Medium" then
      ["Implement risk monitoring processes",
       "Regular status reviews",
       "Prepare contingency plans"]
    else
      ["Continue current project management approach",
       "Regular risk assessment",
       "Focus on optimization and efficiency"]
  else if kind = "customer_satisfaction" then
    if level = "High" then
      ["Immediate customer experience improvements",
       "Address critical pain points",
       "Implement customer feedback systems"]
    else if level = "Medium" then
      ["Systematic improvement planning",
       "Regular customer satisfaction monitoring",
       "Focus on high-impact improvements"]
    else
      ["Maintain current service standards",
       "Continue monitoring customer feedback",
       "Look for enhancement opportunities"]
  else
    if level = "High" then
      ["Immediate action required", "Professional consultation recommended",
       "Risk mitigation planning"]
    else if level = "Medium" then
      ["Monitor situation closely", "Implement improvement plans",
       "Regular assessment needed"]
    else
      ["Maintain current approach", "Continue monitoring",
       "Look for enhancement opportunities"]

/-- The dict returned by `_generate_overall_assessment`
(src/enhanced_questionnaire.py lines 650-655). -/
structure OverallAssessment where
  risk_level : String
  risk_score : Nat
  overall_health : String
  key_recommendations : List String
  deriving DecidableEq

/-- `_generate_overall_assessment` (src/enhanced_questionnaire.py lines
605-655), with `self.selected_question_set = kind` and
`self.responses = resp`. -/
def generateOverallAssessment (kind : String)
    (resp : List (String × PyObj)) : OverallAssessment :=
  let score := riskScore kind resp
  let level := riskLevel score
  { risk_level := level
    risk_score := score
    overall_health :=
      if level = "Low" then "Good"
      else if level = "Medium" then "Fair"
      else "Concerning"
    key_recommendations := setRecs kind level }

/-- Gregorian leap-year rule used by `datetime`. -/
def isLeapYear (y : Nat) : Bool :=
  (y % 4 = 0 && y % 100 ≠ 0) || y % 400 = 0

/-- Days in a month, as enforced by the `datetime` constructor. -/
def daysInMonth (y m : Nat) : Nat :=
  if m = 2 then (if isLeapYear y then 29 else 28)
  else if m = 4 ∨ m = 6 ∨ m = 9 ∨ m = 11 then 30
  else 31

/-- `datetime.strptime(s, "%Y-%m-%d")` (src/experiment_monitoring_questionnaire.py
lines 708-711): the year is exactly four digits, month and day one or two
digits, and the triple must be a real calendar date, else `ValueError`
(modelled as `Option.none`). -/
def parseDate (s : String) : Option (Nat × Nat × Nat) :=
  match splitCharList '-' s.data with
  | [ys, ms, ds] =>
      if ys.length = 4 ∧ ys.all Char.isDigit ∧
         ms ≠ [] ∧ ms.length ≤ 2 ∧ ms.all Char.isDigit ∧
         ds ≠ [] ∧ ds.length ≤ 2 ∧ ds.all Char.isDigit then
        let y := natOfDigits ys
        let m := natOfDigits ms
        let d := natOfDigits ds
        if 1 ≤ y ∧ 1 ≤ m ∧ m ≤ 12 ∧ 1 ≤ d ∧ d ≤ daysInMonth y m then
          some (y, m, d)
        else Option.none
      else Option.none
  | _ => Option.none

/-- Day number of a calendar date (days since 0000-03-01, standard civil
conversion); differences of day numbers model `(a - b).days` on midnight
`datetime` values, and the order of day numbers models `datetime` order. -/
def rataDie (y m d : Nat) : Nat :=
  let y' := if m ≤ 2 then y - 1 else y
  let era := y' / 400
  let yoe := y' % 400
  let doy := (153 * (if m > 2 then m - 3 else m + 9) + 2) / 5 + d - 1
  let doe := yoe * 365 + yoe / 4 - yoe / 100 + yoe / 400 + doy
  era * 146097 + doe

/-- Parse a date string to its day number. -/
def parseDateNum (s : String) : Option Nat :=
  (parseDate s).map (fun t => rataDie t.1 t.2.1 t.2.2)

/-- The validation dict `{"is_valid", "warnings", "errors"}` built by the
validators in src/experiment_monitoring_questionnaire.py. -/
structure Outcome where
  is_valid : Bool
  warnings : List String
  errors : List String
  deriving DecidableEq

def orderingErrMsg : String :=
  "Control period should end before test period begins for proper baseline comparison"

def overlapWarnMsg : String :=
  "Control and test periods overlap - this may invalidate your baseline comparison"

def carryoverWarnMsg : String :=
  "Very small gap between control and test periods - ensure no carryover effects"

def largeGapWarnMsg (gap : Int) : String :=
  "Large gap (" ++ toString gap ++
    " days) between control and test periods may affect comparison validity"

/-- `_validate_experiment_timing` (src/experiment_monitoring_questionnaire.py
lines 705-750): parse all four dates (any failure yields the format-error
outcome); the ordering rule `control_end >= test_start` is an error; the gap
`(test_start - control_end).days` adds a large-gap warning when over 30 days,
an overlap warning when negative, and a carryover warning when between 0 and 7
inclusive. -/
def validateExperimentTiming (cs ce ts te : String) : Outcome :=
  match parseDateNum cs, parseDateNum ce, parseDateNum ts, parseDateNum te with
  | some _, some ceN, some tsN, some _ =>
      let errors := if ceN ≥ tsN then [orderingErrMsg] else []
      let gap : Int := (tsN : Int) - (ceN : Int)
      let warnings :=
        (if gap > 30 then [largeGapWarnMsg gap]
         else if gap < 0 then [overlapWarnMsg]
         else []) ++
        (if 0 ≤ gap ∧ gap ≤ 7 then [carryoverWarnMsg] else [])
      { is_valid := if ceN ≥ tsN then false else true
        warnings := warnings
        errors := errors }
  | _, _, _, _ =>
      { is_valid := false
        warnings := []
        errors := ["Date format error - cannot validate timing relationship"] }

/-- `_compile_all_aris` (src/experiment_monitoring_questionnaire.py lines
273-296; identical in src/updated_experiment_monitoring_questionnaire.py lines
301-318): split the identifier text on the first separator present among
comma, newline, semicolon, whitespace; strip items and drop empty ones. -/
def compileAllAris (ariText : String) : List String :=
  if ariText = "" then []
  else if pyContainsChar ',' ariText then
    ((pySplitChar ',' ariText).map pyTrim).filter (· ≠ "")
  else if pyContainsChar '\n' ariText then
    ((pySplitChar '\n' ariText).map pyTrim).filter (· ≠ "")
  else if pyContainsChar ';' ariText then
    ((pySplitChar ';' ariText).map pyTrim).filter (· ≠ "")
  else (pySplitWs ariText).map pyTrim |>.filter (· ≠ "")

/-- The identifier-list parsing rule as worded in the spec (§6): try the
separators in the fixed priority order comma, newline, semicolon, whitespace;
stop at the first one found in the text; split on it; trim items; drop empty
items. -/
def parseIdentifiersSpec (t : String) : List String :=
  if pyContainsChar ',' t then
    ((pySplitChar ',' t).map pyTrim).filter (· ≠ "")
  else if pyContainsChar '\n' t then
    ((pySplitChar '\n' t).map pyTrim).filter (· ≠ "")
  else if pyContainsChar ';' t then
    ((pySplitChar ';' t).map pyTrim).filter (· ≠ "")
  else (pySplitWs t).map pyTrim |>.filter (· ≠ "")

/-- The `results` record written by `save_results`
(src/enhanced_questionnaire.py lines 789-795), as the JSON document
`json.dump` produces from it. -/
def saveResultsDoc (timestamp questionSet : String) (setInfo : PyObj)
    (responses analysis : List (String × PyObj)) : Json :=
  pyToJson (.dict
    [("timestamp", .str timestamp),
     ("question_set", .str questionSet),
     ("set_info", setInfo),
     ("responses", .dict responses),
     ("analysis", .dict analysis)])

/-- Field access on a decoded JSON object. -/
def jsonField (j : Json) (k : String) : Option Json :=
  match j with
  | .obj d => (d.find? (fun p => p.1 = k)).map Prod.snd
  | _ => Option.none

/-- Modelled from the spec: reading the saved document back (§6: the export is
a field-named record; no reader exists under src/).  The `responses` field is
decoded back to a Python value. -/
def readBackResponses (doc : Json) : Option PyObj :=
  (jsonField doc "responses").map jsonToPy

/-- Modelled from the spec: reading the `analysis` field of the saved document
back to a Python value. -/
def readBackAnalysis (doc : Json) : Option PyObj :=
  (jsonField doc "analysis").map jsonToPy

/-- The business-type question of the business-analysis set
(src/questionnaire_config.py lines 12-18), used as a concrete witness. -/
def bizOpts : List String :=
  ["Technology", "Finance", "Healthcare", "Retail", "Manufacturing", "Other"]

def bizQ : QuestionData :=
  { id? := some "business_type",
    question? := some "What type of business are you analyzing?",
    qtype? := some "multiple_choice", options? := some bizOpts,
    required? := some true }

/-- A question dict that fails the format validation, for the reasons the
spec lists: a missing required field (`id`, `question` or `type`), a type tag
outside the known question types, or a choice-type question whose `options`
value is missing or empty. -/
def badFormat (q : QuestionData) : Prop :=
  q.id? = Option.none ∨ q.question? = Option.none ∨ q.qtype? = Option.none ∨
  (∃ t, q.qtype? = some t ∧ t ∉ questionTypes) ∨
  (∃ t, q.qtype? = some t ∧ (t = "multiple_choice" ∨ t = "multi_select") ∧
      q.options?.getD [] = [])

/-- A required free-text question and an optional free-text question from the
business-analysis set, used as concrete C1 runs. -/
def qRiskFactors : QuestionData :=
  { id? := some "risk_factors",
    question? := some "What are the main risk factors?",
    qtype? := some "text", required? := some true }

def qOpportunities : QuestionData :=
  { id? := some "opportunities",
    question? := some "What opportunities do you see for the company?",
    qtype? := some "text", required? := some false }

mutual

theorem jsonToPy_pyToJson : ∀ x, jsonToPy (pyToJson x) = x
  | .none => rfl
  | .bool _ => rfl
  | .int _ => rfl
  | .float _ => rfl
  | .str _ => rfl
  | .list l => by simp [pyToJson, jsonToPy, jsonListToPy_pyListToJson l]
  | .dict d => by simp [pyToJson, jsonToPy, jsonDictToPy_pyDictToJson d]

theorem jsonListToPy_pyListToJson : ∀ l, jsonListToPy (pyListToJson l) = l
  | [] => rfl
  | x :: xs => by
      simp [pyListToJson, jsonListToPy, jsonToPy_pyToJson x,
        jsonListToPy_pyListToJson xs]

theorem jsonDictToPy_pyDictToJson : ∀ d, jsonDictToPy (pyDictToJson d) = d
  | [] => rfl
  | (k, v) :: xs => by
      simp [pyDictToJson, jsonDictToPy, jsonToPy_pyToJson v,
        jsonDictToPy_pyDictToJson xs]

end

/-- `splitCharList` never returns an empty list of pieces. -/
theorem splitCharList_ne_nil (c : Char) (l : List Char) : splitCharList c l ≠ [] := by
  induction l with
  | nil => simp [splitCharList]
  | cons x xs ih =>
      simp only [splitCharList]
      split
      · simp
      · split
        · simp
        · simp

example : parsePyInt " 12 " = some 12 := by decide
example : parsePyInt "3.5" = Option.none := by decide
example : parsePyInt "-4" = some (-4) := by decide
example : parsePyFloat "abc" = Option.none := by decide
example : (parsePyFloat "2.5").isSome = true := by decide
example : pyTrim "  a b " = "a b" := by decide
example : pySplitChar ',' "a, b,c" = ["a", " b", "c"] := by decide
example : pySplitWs "a  b c" = ["a", "b", "c"] := by decide

example : rataDie 2024 2 29 + 1 = rataDie 2024 3 1 := by decide
example : rataDie 2023 2 28 + 1 = rataDie 2023 3 1 := by decide
example : rataDie 2023 12 31 + 1 = rataDie 2024 1 1 := by decide
example : rataDie 2024 2 15 + 5 = rataDie 2024 2 20 := by decide
example : rataDie 2024 1 31 + 15 = rataDie 2024 2 15 := by decide
example : rataDie 2024 2 14 + 1 = rataDie 2024 2 15 := by decide
example : rataDie 2000 1 1 + 366 = rataDie 2001 1 1 := by decide
example : parseDate "2024-02-30" = Option.none := by decide
example : parseDate "2024-2-5" = some (2024, 2, 5) := by decide
example : parseDate "24-02-05" = Option.none := by decide

/-- C2: for every identifier-list text, the parser tries separators in the
fixed priority order comma, newline, semicolon, whitespace, splitting on the
first one present, trimming items and dropping empty ones (the source
function agrees with the spec-worded rule on every input); in particular
`"a, b,c"` parses to `["a", "b", "c"]`, the comma winning over whitespace. -/
theorem ari_priority_order :
    (∀ t, compileAllAris t = parseIdentifiersSpec t) ∧
    compileAllAris "a, b,c" = ["a", "b", "c"] := by
  constructor
  · intro t
    by_cases h : t = ""
    · subst h; decide
    · unfold compileAllAris parseIdentifiersSpec
      rw [if_neg h]
  · decide

/-- C3: whenever all four period dates are validly formatted and the gap from
baseline (control) end to treatment (test) start is negative (an overlap), the
timing validation returns `valid = false` with exactly the one ordering error
and exactly the one overlap warning. -/
theorem timing_overlap_error_and_warning (cs ce ts te : String) (dce dts : Nat)
    (hcs : (parseDateNum cs).isSome) (hce : parseDateNum ce = some dce)
    (hts : parseDateNum ts = some dts) (hte : (parseDateNum te).isSome)
    (hneg : dts < dce) :
    validateExperimentTiming cs ce ts te =
      { is_valid := false, warnings := [overlapWarnMsg],
        errors := [orderingErrMsg] } := by
  obtain ⟨x, hx⟩ := Option.isSome_iff_exists.mp hcs
  obtain ⟨w, hw⟩ := Option.isSome_iff_exists.mp hte
  unfold validateExperimentTiming
  rw [hx, hce, hts, hw]
  have hge : dts ≤ dce := le_of_lt hneg
  have h30 : ¬((dts : Int) - (dce : Int) > 30) := by omega
  have hlt : ((dts : Int) - (dce : Int) < 0) := by omega
  have h07 : ¬(0 ≤ (dts : Int) - (dce : Int) ∧ (dts : Int) - (dce : Int) ≤ 7) := by
    omega
  simp [hge, h30, hlt, h07]
  all_goals omega

/-- C3 witness: baseline end 2024-02-20, treatment start 2024-02-15 (gap −5
days) yields `valid = false`, the single ordering error, and the single
overlap warning. -/
theorem timing_overlap_error_and_warning_witness :
    validateExperimentTiming "2024-01-01" "2024-02-20" "2024-02-15" "2024-03-15" =
      { is_valid := false, warnings := [overlapWarnMsg],
        errors := [orderingErrMsg] } :=
  timing_overlap_error_and_warning _ _ _ _ _ _ (by decide) rfl rfl (by decide)
    (by decide)

/-- C4: whenever all four period dates are validly formatted and the gap in
days from baseline (control) end to treatment (test) start is between 0 and 7
inclusive, the carryover (small gap) warning is emitted; and when the baseline
ends exactly one day before the treatment starts, the outcome is valid, with
no error and exactly that one warning. -/
theorem timing_small_gap_warning (cs ce ts te : String) (dce dts : Nat)
    (hcs : (parseDateNum cs).isSome) (hce : parseDateNum ce = some dce)
    (hts : parseDateNum ts = some dts) (hte : (parseDateNum te).isSome)
    (hge : dce ≤ dts) (hle : dts ≤ dce + 7) :
    carryoverWarnMsg ∈ (validateExperimentTiming cs ce ts te).warnings ∧
    (dts = dce + 1 →
      validateExperimentTiming cs ce ts te =
        { is_valid := true, warnings := [carryoverWarnMsg], errors := [] }) := by
  obtain ⟨x, hx⟩ := Option.isSome_iff_exists.mp hcs
  obtain ⟨w, hw⟩ := Option.isSome_iff_exists.mp hte
  unfold validateExperimentTiming
  rw [hx, hce, hts, hw]
  have h30 : ¬((dts : Int) - (dce : Int) > 30) := by omega
  have h07 : (0 ≤ (dts : Int) - (dce : Int) ∧ (dts : Int) - (dce : Int) ≤ 7) := by
    omega
  constructor
  · simp [h30, h07]
  · intro h1
    have hlt : ¬(dce ≥ dts) := by omega
    have hnn : ¬((dts : Int) - (dce : Int) < 0) := by omega
    simp [h30, h07, hlt, hnn]

/-- C4 witness: baseline 2024-01-01..2024-02-14 ends exactly one day before
the treatment start 2024-02-15: the outcome is valid with exactly the
carryover warning and no error. -/
theorem timing_small_gap_warning_witness :
    validateExperimentTiming "2024-01-01" "2024-02-14" "2024-02-15" "2024-03-15" =
      { is_valid := true, warnings := [carryoverWarnMsg], errors := [] } :=
  (timing_small_gap_warning "2024-01-01" "2024-02-14" "2024-02-15" "2024-03-15"
      (rataDie 2024 2 14) (rataDie 2024 2 15) (by decide) rfl rfl (by decide)
      (by decide) (by decide)).2 (by decide)

/-- C8: the structured JSON document written for a completed run holds the
full `ResponseMap` under `responses` and the full `AnalysisResult` under
`analysis`; reading either field back decodes to a value equal to the
original, with no field lost or altered. -/
theorem save_results_roundtrip (ts qs : String) (info : PyObj)
    (resp anal : List (String × PyObj)) :
    readBackResponses (saveResultsDoc ts qs info resp anal) =
      some (.dict resp) ∧
    readBackAnalysis (saveResultsDoc ts qs info resp anal) =
      some (.dict anal) := by
  have hd : ∀ d : List (String × PyObj),
      jsonToPy (Json.obj (pyDictToJson d)) = PyObj.dict d := fun d =>
    jsonToPy_pyToJson (.dict d)
  constructor <;>
    simp [saveResultsDoc, readBackResponses, readBackAnalysis, jsonField,
      pyToJson, pyDictToJson, List.find?, hd]

/-- C5: for every question-set kind and every response map, the aggregate
verdict buckets the accumulated risk score into exactly three tiers with the
fixed thresholds ≥5 "High", ≥3 "Medium", else "Low"; and whenever the score
is 5, the tier is "High" and the recommendations are the kind's fixed
High-tier list (`setRecs kind "High"` — a function of the kind and the tier
only, independent of the responses). -/
theorem verdict_score_five_high (kind : String) (resp : List (String × PyObj)) :
    (generateOverallAssessment kind resp).risk_level =
      (if riskScore kind resp ≥ 5 then "High"
       else if riskScore kind resp ≥ 3 then "Medium" else "Low") ∧
    (riskScore kind resp = 5 →
      (generateOverallAssessment kind resp).risk_level = "High" ∧
      (generateOverallAssessment kind resp).key_recommendations =
        setRecs kind "High") := by
  refine ⟨rfl, fun h5 => ⟨?_, ?_⟩⟩ <;>
    simp [generateOverallAssessment, riskLevel, h5]

/-- C5 witness: an investment-analysis run with an aggressive risk tolerance
and an undiversified portfolio accumulates risk score 5 and receives the
High tier with the investment High-tier recommendation list. -/
theorem verdict_score_five_high_witness :
    riskScore "investment_analysis"
        [("risk_tolerance", PyObj.str "Aggressive"),
         ("diversification", PyObj.str "Not diversified")] = 5 ∧
    (generateOverallAssessment "investment_analysis"
        [("risk_tolerance", PyObj.str "Aggressive"),
         ("diversification", PyObj.str "Not diversified")]).risk_level =
      "High" ∧
    (generateOverallAssessment "investment_analysis"
        [("risk_tolerance", PyObj.str "Aggressive"),
         ("diversification", PyObj.str "Not diversified")]).key_recommendations =
      setRecs "investment_analysis" "High" :=
  ⟨rfl,
   ((verdict_score_five_high "investment_analysis"
      [("risk_tolerance", PyObj.str "Aggressive"),
       ("diversification", PyObj.str "Not diversified")]).2 rfl).1,
   ((verdict_score_five_high "investment_analysis"
      [("risk_tolerance", PyObj.str "Aggressive"),
       ("diversification", PyObj.str "Not diversified")]).2 rfl).2⟩

/-- C9: a question dict with `id`, `question` and `type = "rating"` present
passes the format validator whatever its `scale` field holds — absent
(`Option.none`) or any integer, positive or not (`scale?` ranges over all of
`Option Int` here); and when the `scale` field is absent the collector
behaves exactly as if the scale were the default 5. -/
theorem rating_default_scale (q : QuestionData) (s : String)
    (h1 : q.id?.isSome) (h2 : q.question?.isSome)
    (h3 : q.qtype? = some "rating") :
    validateQuestionFormat q = true ∧
    (q.scale? = Option.none →
      attempt q s = attempt { q with scale? := some 5 } s) := by
  constructor
  · unfold validateQuestionFormat
    rw [h3]
    simp [h1, h2, questionTypes]
  · intro h4
    unfold attempt
    rw [h3, h4]
    rfl

/-- C9 witness: the rating question of the employee-satisfaction example with
its `scale` removed still validates, as does the same question with the
non-positive scale −3; and the collector on input "4" treats the scale-less
question as a 1–5 rating. -/
theorem rating_default_scale_witness :
    validateQuestionFormat
        { id? := some "recommendation_likelihood",
          question? := some "How likely are customers to recommend you?",
          qtype? := some "rating", required? := some true } = true ∧
    validateQuestionFormat
        { id? := some "recommendation_likelihood",
          question? := some "How likely are customers to recommend you?",
          qtype? := some "rating", scale? := some (-3),
          required? := some true } = true ∧
    attempt
        { id? := some "recommendation_likelihood",
          question? := some "How likely are customers to recommend you?",
          qtype? := some "rating", required? := some true } "4" =
      attempt
        { id? := some "recommendation_likelihood",
          question? := some "How likely are customers to recommend you?",
          qtype? := some "rating", scale? := some 5,
          required? := some true } "4" :=
  ⟨(rating_default_scale
      { id? := some "recommendation_likelihood",
        question? := some "How likely are customers to recommend you?",
        qtype? := some "rating", required? := some true } "4" rfl rfl rfl).1,
   (rating_default_scale
      { id? := some "recommendation_likelihood",
        question? := some "How likely are customers to recommend you?",
        qtype? := some "rating", scale? := some (-3),
        required? := some true } "4" rfl rfl rfl).1,
   (rating_default_scale
      { id? := some "recommendation_likelihood",
        question? := some "How likely are customers to recommend you?",
        qtype? := some "rating", required? := some true } "4" rfl rfl rfl).2 rfl⟩

/-- C10: for a selected question-set identifier other than the four
registered kinds, the base engine's overall assessment is the same for every
response map: risk score 0, risk level "Low", overall health "Good" (with the
generic Low-tier recommendations); no answer can change it. -/
theorem generic_kind_fixed_verdict (kind : String)
    (resp : List (String × PyObj))
    (h : kind ∉ ["business_analysis", "investment_analysis",
        "project_management", "customer_satisfaction"]) :
    generateOverallAssessment kind resp =
      { risk_level := "Low", risk_score := 0, overall_health := "Good",
        key_recommendations :=
          ["Maintain current approach", "Continue monitoring",
           "Look for enhancement opportunities"] } ∧
    generateOverallAssessment kind resp = generateOverallAssessment kind [] := by
  simp only [List.mem_cons, List.mem_singleton, not_or] at h
  obtain ⟨h1, h2, h3, h4, -⟩ := h
  constructor <;>
    simp [generateOverallAssessment, riskScore, riskLevel, setRecs,
      h1, h2, h3, h4]

/-- C10 witness: the experiment-monitoring custom kind with a response that
would score under business analysis still gets risk score 0, level "Low",
health "Good". -/
theorem generic_kind_fixed_verdict_witness :
    generateOverallAssessment "experiment_monitoring"
        [("growth_rate", PyObj.str "Declining")] =
      { risk_level := "Low", risk_score := 0, overall_health := "Good",
        key_recommendations :=
          ["Maintain current approach", "Continue monitoring",
           "Look for enhancement opportunities"] } :=
  (generic_kind_fixed_verdict "experiment_monitoring" _ (by decide)).1

/-- C6: for a single-choice question with option list `opts`, one prompt
iteration of the collector rejects non-numeric input and any index outside
`[1, opts.length]` (so the loop re-prompts, consuming the line), and accepts
every index `i` in range, returning the option string `opts[i-1]`. -/
theorem single_choice_bounds (q : QuestionData) (opts : List String) (s : String)
    (hty : q.qtype? = some "multiple_choice") (hopts : q.options? = some opts) :
    (parsePyInt s = Option.none → attempt q s = Option.none) ∧
    (∀ i : Int, parsePyInt s = some i → (i < 1 ∨ (opts.length : Int) < i) →
        attempt q s = Option.none) ∧
    (∀ i : Int, parsePyInt s = some i → 1 ≤ i → i ≤ (opts.length : Int) →
        attempt q s = some (.str (opts.getD (i - 1).toNat ""))) ∧
    (∀ rest : List String, attempt q s = Option.none →
        getUserInput q (s :: rest) = getUserInput q rest) := by
  refine ⟨?_, ?_, ?_, ?_⟩
  · intro hp
    unfold attempt
    rw [hty]
    simp [hp]
  · intro i hp hout
    unfold attempt
    rw [hty, hopts]
    simp only [Option.getD_some]
    rw [hp]
    simp only []
    rw [if_neg]
    omega
  · intro i hp h1 h2
    unfold attempt
    rw [hty, hopts]
    simp only [Option.getD_some]
    rw [hp]
    simp only []
    rw [if_pos ⟨h1, h2⟩]
  · intro rest hrej
    unfold getUserInput
    rw [hty]
    have hsupp : supportedTypes.contains ((some "multiple_choice").getD "") = true := by
      decide
    rw [hsupp]
    simp only [if_true]
    conv_lhs => rw [getUserInputLoop]
    rw [hrej]

/-- C6 witness: on the business-type question (6 options), input "2" returns
the second option, input "7" is rejected (out of range), input "abc" is
rejected (non-numeric), and a rejected line makes the collector re-prompt on
the remaining input. -/
theorem single_choice_bounds_witness :
    attempt bizQ "2" = some (PyObj.str "Finance") ∧
    attempt bizQ "7" = Option.none ∧
    attempt bizQ "abc" = Option.none ∧
    getUserInput bizQ ["abc", "2"] = getUserInput bizQ ["2"] := by
  refine ⟨?_, ?_, ?_, ?_⟩
  · exact (single_choice_bounds bizQ bizOpts "2" rfl rfl).2.2.1 2 (by decide)
      (by decide) (by decide)
  · exact (single_choice_bounds bizQ bizOpts "7" rfl rfl).2.1 7 (by decide)
      (by decide)
  · exact (single_choice_bounds bizQ bizOpts "abc" rfl rfl).1 (by decide)
  · exact (single_choice_bounds bizQ bizOpts "abc" rfl rfl).2.2.2 ["2"] rfl

/-- The source validator rejects exactly the `badFormat` questions. -/
theorem validateQuestionFormat_eq_false_iff (q : QuestionData) :
    validateQuestionFormat q = false ↔ badFormat q := by
  unfold validateQuestionFormat badFormat
  cases hid : q.id? <;> cases hq : q.question? <;> cases hty : q.qtype? <;>
    cases hop : q.options? <;>
    simp [hid, hq, hty, hop, List.isEmpty_iff, Option.isSome]
  all_goals try tauto

/-- C7: constructing a custom question set at runtime from caller-supplied
question definitions returns `None` whenever any supplied question fails the
format validation (missing `id`/`question`/`type`, unknown type tag, or a
choice type without a non-empty options list). -/
theorem register_fails_on_invalid (name description category : String)
    (qs : List QuestionData) (h : ∃ q ∈ qs, badFormat q) :
    registerQuestionSet name description qs category = Option.none := by
  obtain ⟨q, hq, hbad⟩ := h
  unfold registerQuestionSet
  rw [if_neg]
  intro hall
  have := List.all_eq_true.mp hall q hq
  rw [(validateQuestionFormat_eq_false_iff q).mpr hbad] at this
  exact Bool.false_ne_true this

/-- C7 witness: a two-question list whose second question is a multi-select
with an empty options list fails registration. -/
theorem register_fails_on_invalid_witness :
    registerQuestionSet "Employee Satisfaction Survey"
        "Comprehensive employee satisfaction and engagement analysis"
        [{ id? := some "suggestions",
           question? := some "What suggestions do you have?",
           qtype? := some "text", required? := some false },
         { id? := some "concerns",
           question? := some "What are your main concerns?",
           qtype? := some "multi_select", options? := some [],
           required? := some false }] "hr" = Option.none :=
  register_fails_on_invalid _ _ _ _
    ⟨{ id? := some "concerns",
       question? := some "What are your main concerns?",
       qtype? := some "multi_select", options? := some [],
       required? := some false },
     by simp,
     Or.inr (Or.inr (Or.inr (Or.inr ⟨"multi_select", rfl, Or.inr rfl, rfl⟩)))⟩

/-- Inserting a fresh key into the modelled dict appends the pair. -/
theorem dictSet_eq_append (m : List (String × PyObj)) (k : String) (v : PyObj)
    (h : k ∉ m.map Prod.fst) : dictSet m k v = m ++ [(k, v)] := by
  unfold dictSet
  rw [if_neg]
  simp only [List.any_eq_true, decide_eq_true_eq, not_exists]
  rintro p ⟨hp, hpk⟩
  exact h (hpk ▸ List.mem_map_of_mem Prod.fst hp)

/-- With pairwise-distinct pending question ids that avoid the keys already
accumulated, building the response dict equals appending the per-question
answer list. -/
theorem conduct_eq_collect (qs : List QuestionData) (inputs : List String)
    (acc : List (String × PyObj))
    (hnd : (acc.map Prod.fst ++ qs.map qidOf).Nodup) :
    conductQuestionnaire qs inputs acc =
      (collectAnswers qs inputs).map (fun l => acc ++ l) := by
  induction qs generalizing inputs acc with
  | nil => simp [conductQuestionnaire, collectAnswers]
  | cons q qs ih =>
      unfold conductQuestionnaire collectAnswers
      cases h : getUserInput q inputs with
      | none => simp
      | some vr =>
          obtain ⟨v, rest⟩ := vr
          have hk : qidOf q ∉ acc.map Prod.fst := by
            rw [List.nodup_append] at hnd
            intro hmem
            exact hnd.2.2 hmem (List.mem_cons_self _ _)
          show conductQuestionnaire qs rest (dictSet acc (qidOf q) v) =
            Option.map (fun l => acc ++ l)
              (Option.map (fun l => (qidOf q, v) :: l) (collectAnswers qs rest))
          rw [dictSet_eq_append acc (qidOf q) v hk]
          rw [ih rest (acc ++ [(qidOf q, v)])
            (by simpa [List.append_assoc] using hnd)]
          cases collectAnswers qs rest <;> simp

/-- The keys of the per-question answer list are the question ids, in order. -/
theorem collectAnswers_keys (qs : List QuestionData) (inputs : List String)
    (m : List (String × PyObj)) (h : collectAnswers qs inputs = some m) :
    m.map Prod.fst = qs.map qidOf := by
  induction qs generalizing inputs m with
  | nil =>
      unfold collectAnswers at h
      simp only [Option.some.injEq] at h
      subst h
      rfl
  | cons q qs ih =>
      unfold collectAnswers at h
      cases hg : getUserInput q inputs with
      | none => rw [hg] at h; exact absurd h (by simp)
      | some vr =>
          obtain ⟨v, rest⟩ := vr
          rw [hg] at h
          have h2 : Option.map (fun l => (qidOf q, v) :: l)
              (collectAnswers qs rest) = some m := h
          rw [Option.map_eq_some'] at h2
          obtain ⟨l, hc, hm⟩ := h2
          subst hm
          simp [ih rest l hc]

/-- C1 (amended): for every completed run over a question list with distinct
ids, the resulting response map is exactly the per-question association of
each question's id with the answer the collector accepted for it — one entry
per question, in order, with no entry ever omitted (an optional question the
user skips is stored under its id with the type's empty value, not dropped). -/
theorem conduct_one_entry_per_question (qs : List QuestionData)
    (inputs : List String) (m : List (String × PyObj))
    (hnd : (qs.map qidOf).Nodup)
    (h : conductQuestionnaire qs inputs [] = some m) :
    collectAnswers qs inputs = some m ∧ m.map Prod.fst = qs.map qidOf := by
  have he := conduct_eq_collect qs inputs [] (by simpa using hnd)
  rw [h] at he
  cases hc : collectAnswers qs inputs with
  | none => rw [hc] at he; exact absurd he (by simp)
  | some l =>
      rw [hc] at he
      simp at he
      subst he
      exact ⟨rfl, collectAnswers_keys qs inputs _ hc⟩

/-- C1 counterexample: a run over the single optional question
`opportunities` in which the user supplies no value (presses Enter) still
stores an entry for the question — the id maps to the empty string instead of
being omitted, contradicting the claim that the entry is omitted exactly when
the question is optional and the user supplies no value. -/
theorem conduct_optional_entry_present :
    conductQuestionnaire [qOpportunities] [""] [] =
      some [("opportunities", PyObj.str "")] ∧
    dictGet [("opportunities", PyObj.str "")] "opportunities" =
      some (PyObj.str "") := ⟨rfl, rfl⟩

/-- C1 witness: a run over a required text question (first answer empty, so
the collector re-prompts and then accepts "expansion") followed by an
optional text question the user skips: the map has exactly one entry per
question, in order. -/
theorem conduct_one_entry_per_question_witness :
    collectAnswers [qRiskFactors, qOpportunities] ["", "expansion", ""] =
      some [("risk_factors", PyObj.str "expansion"),
        ("opportunities", PyObj.str "")] ∧
    [("risk_factors", PyObj.str "expansion"),
      ("opportunities", PyObj.str "")].map Prod.fst =
      [qRiskFactors, qOpportunities].map qidOf :=
  conduct_one_entry_per_question [qRiskFactors, qOpportunities]
    ["", "expansion", ""]
    [("risk_factors", PyObj.str "expansion"), ("opportunities", PyObj.str "")]
    (by decide) rfl
